import Mathlib

/-!
Verification of the SHL Assessment Recommendation Engine
(`backend/recommender.py`, `backend/database.py`, `backend/config.py`).

The Python engine is shallowly embedded: dictionaries become insertion-ordered
association lists, `datetime` timestamps and all numeric values become `ℚ`
(exact arithmetic; the spec explicitly excludes exact numerical-library
parity), and the two external collaborators — the SQLite persistence adapter
and the sklearn numerical routines (`cosine_similarity`, `np.exp`) — are
passed in as parameters (`dbFails`, `sims`, `expFn`).  Fallible operations
return an outcome `Option RecErr` next to the post-state, because a Python
exception propagates while leaving already-performed mutations in place.
-/

namespace SHLRec

/-! ## Association-list helpers (model of Python `dict` / `defaultdict`) -/

/-- Value of the first entry with key `k`, if any (Python `d[k]` / `d.get(k)`). -/
def findVal? {κ α : Type} [DecidableEq κ] : List (κ × α) → κ → Option α
  | [], _ => none
  | (k, v) :: t, k0 => if k = k0 then some v else findVal? t k0

/-- Python `d.get(k, dflt)`. -/
def getD {κ α : Type} [DecidableEq κ] (l : List (κ × α)) (k : κ) (dflt : α) : α :=
  (findVal? l k).getD dflt

/-- Python `k in d`. -/
def containsKey {κ α : Type} [DecidableEq κ] (l : List (κ × α)) (k : κ) : Bool :=
  (findVal? l k).isSome

/-- Python `d[k] = v`: replace the entry if the key is present, else append at
the end (Python dicts preserve insertion order). -/
def setVal {κ α : Type} [DecidableEq κ] : List (κ × α) → κ → α → List (κ × α)
  | [], k, v => [(k, v)]
  | (k1, v1) :: t, k, v => if k1 = k then (k, v) :: t else (k1, v1) :: setVal t k v

/-- Python `d[k] = f(d.get(k, dflt))`, the shape of `defaultdict` updates such
as `d[k] += w`. -/
def modifyValD {κ α : Type} [DecidableEq κ] (l : List (κ × α)) (k : κ) (dflt : α)
    (f : α → α) : List (κ × α) :=
  setVal l k (f (getD l k dflt))

/-! ## Python iteration / slicing / sorting helpers -/

/-- Python `enumerate`, with a starting index. -/
def enumList {α : Type} : Nat → List α → List (Nat × α)
  | _, [] => []
  | n, a :: l => (n, a) :: enumList (n + 1) l

/-- Python `enumerate(l)`. -/
def pyEnum {α : Type} (l : List α) : List (Nat × α) := enumList 0 l

/-- Python slice `l[-k:]`.  Note the edge case: for `k = 0` the slice is
`l[0:]`, the whole list, not the empty list. -/
def pyLastSlice {α : Type} (l : List α) (k : Nat) : List α :=
  if k = 0 then l else l.drop (l.length - k)

/-- Python `l.sort(key=key, reverse=True)` / `sorted(l, key=key, reverse=True)`.
Python's sort is stable; a stable descending sort by a rational key is exactly
insertion sort with the relation `key b ≤ key a` (an element is inserted in
front of the first earlier-sorted element whose key is not larger). -/
def pySortByDesc {α : Type} (key : α → ℚ) (l : List α) : List α :=
  l.insertionSort (fun a b => key b ≤ key a)

/-- Python string repetition `s * n`. -/
def pyRepeat (s : String) (n : Nat) : String :=
  String.join (List.replicate n s)

/-- Python `int(x)`: truncation toward zero. -/
def pyInt (x : ℚ) : ℤ :=
  if 0 ≤ x then ⌊x⌋ else ⌈x⌉

/-- Round-half-to-even to an integer, the rounding mode of Python `round`. -/
def roundHalfEven (x : ℚ) : ℤ :=
  let n := ⌊x⌋
  let frac := x - (n : ℚ)
  if frac < 1 / 2 then n
  else if 1 / 2 < frac then n + 1
  else if n % 2 = 0 then n else n + 1

/-- Python `round(x, 2)`. -/
def pyRound2 (x : ℚ) : ℚ :=
  ((roundHalfEven (x * 100) : ℚ)) / 100

/-- Maximum of a list of rationals (numpy `.max()`; numpy raises on an empty
array, the engine only applies it to the per-assessment score vector, which is
nonempty — the `[]` case is an unreachable placeholder). -/
def maxQ : List ℚ → ℚ
  | [] => 0
  | x :: xs => xs.foldl max x

/-- Python `str.lower()`, modeled characterwise (the core `String.toLower`
is defined by well-founded recursion, which blocks kernel evaluation). -/
def pyLower (s : String) : String :=
  ⟨s.data.map Char.toLower⟩

/-- Python substring test `needle in hay`. -/
def strContains (hay needle : String) : Bool :=
  decide (needle.toList <:+: hay.toList)

/-- Python `any(s.lower() in r.lower() for r in l)`. -/
def anyContains (l : List String) (s : String) : Bool :=
  l.any (fun r => strContains (pyLower r) (pyLower s))

/-! ## Data model (`backend/config.py`) -/

/-- The `suitable_for` sub-record of a catalog item. -/
structure SuitableFor where
  roles : List String
  levels : List String
  industries : List String
  goals : List String
deriving DecidableEq, Repr

/-- A catalog item (`ASSESSMENTS` entry).  Fields never read by the engine
(`detailed_info`, `use_cases`, `metrics`, `link`) are omitted; the engine
reads `id`, `name`, `category`, `description`, `suitable_for`,
`key_features` and `benefits`. -/
structure Assessment where
  id : Nat
  name : String
  category : String
  description : String
  suitable_for : SuitableFor
  key_features : List String
  benefits : List String
deriving DecidableEq, Repr

def shlOPQ : Assessment :=
  { id := 1
    name := "SHL Occupational Personality Questionnaire (OPQ)"
    category := "Personality Assessment"
    description := "Align individual working preferences to business requirements with accurate, fair assessments of potential"
    suitable_for :=
      { roles := ["Manager", "Professional", "Graduate", "Executive", "Sales", "Technical"]
        levels := ["Entry", "Mid", "Senior", "Executive"]
        industries := ["All Industries", "Technology", "Finance", "Healthcare", "Retail", "Manufacturing"]
        goals := ["Quality of Hire", "Cultural Fit", "Team Performance", "Leadership Development", "Retention"] }
    key_features := ["32 personality dimensions", "Mobile-first design", "Multiple automated reports", "Global normative data", "15-25 minute completion"]
    benefits := ["Predicts workplace behavior patterns", "Science-backed with strong predictive accuracy", "Assesses remote work capability", "Reduces turnover by 25%", "Available in 40+ languages"] }

def shlVerify : Assessment :=
  { id := 2
    name := "SHL Verify Interactive - Cognitive Assessment"
    category := "Cognitive Assessment"
    description := "Measure candidates\x27 potential to learn, adapt, and perform with interactive cognitive assessments"
    suitable_for :=
      { roles := ["Graduate", "Technology", "Professional", "Manager", "Analyst", "Engineer"]
        levels := ["Entry", "Mid", "Senior"]
        industries := ["Technology", "Finance", "Healthcare", "Manufacturing", "Consulting", "All Industries"]
        goals := ["Learning Potential", "Problem Solving", "Quality of Hire", "Adaptability", "Critical Thinking"] }
    key_features := ["Verify G+ (General Mental Ability)", "Numerical Reasoning", "Deductive Reasoning", "Inductive Reasoning", "Interactive drag-and-drop", "Remote proctoring"]
    benefits := ["Automated scoring and proctoring", "60% reduction in time-to-hire", "Engaging gamified experience", "Fewer questions with partial scoring", "Predicts learning potential"] }

def shlSJT : Assessment :=
  { id := 3
    name := "Situational Judgment Tests (SJT)"
    category := "Behavioral Assessment"
    description := "Match candidate behavioral fit with immersive, interactive scenarios and effective screening at scale"
    suitable_for :=
      { roles := ["Customer Service", "Sales", "Manager", "Graduate", "Professional", "Contact Center"]
        levels := ["Entry", "Mid"]
        industries := ["Retail", "BPO", "Contact Center", "Healthcare", "Finance", "All Industries"]
        goals := ["Behavioral Fit", "Cultural Alignment", "Customer Service", "Decision Making", "Teamwork"] }
    key_features := ["Video-based scenarios", "Real workplace situations", "Match score reporting", "Mobile optimized", "5-15 minute completion"]
    benefits := ["Reduces mis-hires by 40%", "Increases candidate engagement", "Interactive video-based scenarios", "Scalable for high volume", "89% candidate satisfaction"] }

def shlRJP : Assessment :=
  { id := 4
    name := "Realistic Job Previews (RJP)"
    category := "Behavioral Assessment"
    description := "Preview roles with scenario-based quizzes that give candidates a feel for the job before they commit"
    suitable_for :=
      { roles := ["All Roles", "Entry Level", "Contact Center", "Retail", "Graduate", "Volume"]
        levels := ["Entry", "Mid"]
        industries := ["Retail", "BPO", "Contact Center", "Hospitality", "Manufacturing", "All Industries"]
        goals := ["Candidate Engagement", "Self-Selection", "Reduce Attrition", "Employer Brand", "Cultural Fit"] }
    key_features := ["Customizable scenarios", "Multimedia content", "Brand integration", "Mobile-first", "10-15 minute experience"]
    benefits := ["Increases commitment by 30%", "Reduces early attrition", "Branded candidate experience", "Sets realistic expectations", "Improves quality of applicant pool"] }

def shlMQ : Assessment :=
  { id := 5
    name := "SHL Motivational Questionnaire (MQ)"
    category := "Personality Assessment"
    description := "Match individual motivation to team and organizational goals to build an engaged, high-performing workforce"
    suitable_for :=
      { roles := ["All Roles", "Manager", "Professional", "Graduate", "Sales"]
        levels := ["Entry", "Mid", "Senior"]
        industries := ["All Industries", "Technology", "Finance", "Healthcare", "Retail"]
        goals := ["Employee Engagement", "Retention", "Development", "Team Performance", "Career Development"] }
    key_features := ["18 motivational dimensions", "Team motivation reports", "Development recommendations", "Mobile accessible", "15-20 minute completion"]
    benefits := ["Identifies motivational drivers", "Improves engagement by 35%", "Predicts retention", "Enables personalized development", "Supports career conversations"] }

def shlJFA : Assessment :=
  { id := 6
    name := "Job-Focused Assessments (JFA)"
    category := "Skills Assessment"
    description := "Comprehensive role-specific assessments measuring job-relevant hard and soft skills"
    suitable_for :=
      { roles := ["Contact Center", "Retail", "Manufacturing", "Sales", "Professional", "Manager"]
        levels := ["Entry", "Mid"]
        industries := ["Retail", "Contact Center", "Manufacturing", "Industrial", "BPO", "All Industries"]
        goals := ["Job Performance", "Quality of Hire", "Fair Selection", "Customer Service", "Productivity"] }
    key_features := ["Patented Apta technology", "Role-specific competencies", "Hard and soft skills", "Pre-packaged assessments", "Reduces faking"]
    benefits := ["40% less likely to hire tardy workers", "73% better customer handling", "Reduces bias in selection", "Job-relevant content", "Fast deployment"] }

def shlCoding : Assessment :=
  { id := 7
    name := "Coding Simulations"
    category := "Skills & Simulations"
    description := "AI-powered online coding simulations measuring accuracy, logical correctness, and technical capability"
    suitable_for :=
      { roles := ["Software Developer", "Engineer", "Data Scientist", "DevOps", "Technical Roles"]
        levels := ["Entry", "Mid", "Senior"]
        industries := ["Technology", "Finance", "Consulting", "Startups", "All Industries"]
        goals := ["Technical Skills", "Code Quality", "Problem Solving", "Technical Fit"] }
    key_features := ["Integrated Development Environment", "30+ programming languages", "AI-powered scoring", "Real-world problems", "Plagiarism detection"]
    benefits := ["Real coding environment", "AI-powered evaluation", "30+ languages supported", "Automated scoring", "Measures coding quality"] }

def shlTech : Assessment :=
  { id := 8
    name := "Technical Skills Assessments"
    category := "Skills & Simulations"
    description := "Comprehensive evaluation of technical concepts, knowledge, and application across 200+ IT skills"
    suitable_for :=
      { roles := ["IT Professional", "System Admin", "Network Engineer", "Cloud Architect", "Security Analyst"]
        levels := ["Entry", "Mid", "Senior"]
        industries := ["Technology", "Finance", "Healthcare", "Manufacturing", "All Industries"]
        goals := ["Technical Skills", "Knowledge Validation", "Certification", "Upskilling"] }
    key_features := ["200+ specific IT skills", "Cloud technologies", "Database expertise", "Cybersecurity", "Network administration"]
    benefits := ["200+ IT skills covered", "Expert-validated content", "Automated proctoring", "Scalable assessment", "Current technology stack"] }

def shlLanguage : Assessment :=
  { id := 9
    name := "Language Evaluation"
    category := "Skills & Simulations"
    description := "AI-powered language assessments to build a strong, multilingual workforce"
    suitable_for :=
      { roles := ["Customer Service", "Sales", "Contact Center", "Translator", "Global Roles"]
        levels := ["Entry", "Mid", "Senior"]
        industries := ["BPO", "Contact Center", "Hospitality", "Airlines", "Global Companies"]
        goals := ["Communication Skills", "Language Proficiency", "Customer Service", "Global Readiness"] }
    key_features := ["AI speech recognition", "Writing assessment", "Multiple languages", "CEFR alignment", "Automated scoring"]
    benefits := ["AI-powered scoring", "Multiple languages", "Speaking assessment", "Writing evaluation", "Fast results"] }

def shlContact : Assessment :=
  { id := 10
    name := "Contact Center Simulations"
    category := "Skills & Simulations"
    description := "Job simulations that emulate a real call center environment to pressure-test agent capability"
    suitable_for :=
      { roles := ["Contact Center Agent", "Customer Service Rep", "Technical Support", "BPO Agent"]
        levels := ["Entry", "Mid"]
        industries := ["BPO", "Contact Center", "Telecommunications", "E-commerce", "Financial Services"]
        goals := ["Customer Service", "Communication Skills", "Problem Solving", "Multi-tasking"] }
    key_features := ["Call simulations", "Email handling", "Chat scenarios", "Multi-tasking assessment", "Customer empathy"]
    benefits := ["Realistic job preview", "Multi-channel assessment", "Reduces training time", "Predicts performance", "Engaging experience"] }

def shlBusiness : Assessment :=
  { id := 11
    name := "Business Skills Assessments"
    category := "Skills & Simulations"
    description := "Assess essential business skills and computer literacy for enterprise teams"
    suitable_for :=
      { roles := ["Administrative", "Analyst", "Coordinator", "Graduate", "Professional"]
        levels := ["Entry", "Mid"]
        industries := ["All Industries", "Corporate", "Finance", "Healthcare", "Consulting"]
        goals := ["Computer Literacy", "Business Skills", "Productivity", "Communication"] }
    key_features := ["MS Office (Word, Excel, PowerPoint)", "Email etiquette", "Data interpretation", "Business writing", "Practical simulations"]
    benefits := ["Microsoft Office assessment", "Business communication", "Data analysis skills", "Digital literacy", "Practical application"] }

def shlVADC : Assessment :=
  { id := 12
    name := "Virtual Assessment & Development Centers"
    category := "Assessment Centers"
    description := "End-to-end digital assessment and development centers for identifying potential from anywhere"
    suitable_for :=
      { roles := ["Manager", "Senior Manager", "Executive", "Graduate", "High Potential"]
        levels := ["Mid", "Senior", "Executive"]
        industries := ["All Industries", "Finance", "Corporate", "Government", "Healthcare"]
        goals := ["Leadership Assessment", "Comprehensive Evaluation", "Development", "Succession"] }
    key_features := ["Group exercises", "Role-play simulations", "Presentations", "Psychometric tests", "Expert assessment"]
    benefits := ["60% faster time-to-hire", "75% reduction in assessment time", "Comprehensive evaluation", "Remote capability", "Expert facilitators"] }

/-- The static catalog (`ASSESSMENTS` in `backend/config.py`). -/
def ASSESSMENTS : List Assessment :=
  [shlOPQ, shlVerify, shlSJT, shlRJP, shlMQ, shlJFA, shlCoding, shlTech,
   shlLanguage, shlContact, shlBusiness, shlVADC]

/-! ## Engine state (`AssessmentRecommender.__init__`) -/

/-- Per-user interaction record (`self.user_interactions[uid]`): accumulated
item weights plus a last-activity timestamp.  Timestamps are rationals in
units of days (`datetime` arithmetic in the source only compares them against
a TTL expressed in days). -/
structure UserData where
  items : List (Nat × ℚ)
  last_activity : ℚ
deriving DecidableEq, Repr

/-- An entry of `self.feedback_data`. -/
structure FeedbackItem where
  user_id : String
  assessment_id : Nat
  rating : ℚ
  timestamp : ℚ
deriving DecidableEq, Repr

/-- The optional `context` argument of `record_interaction`: a dict that may
or may not carry the `features` and `predicted_score` keys. -/
structure InteractionCtx where
  features : Option (List (String × ℚ))
  predicted_score : Option ℚ

/-- Exceptions escaping `record_interaction`: the two `ValueError`s of the
validation block, and a database error re-raised by
`DatabasePersistence.save_feedback`. -/
inductive RecErr
  | validation (msg : String)
  | db
deriving DecidableEq, Repr

/-- Mutable state of `AssessmentRecommender`.  `user_profiles` is write-only
bookkeeping never read by any scoring or learning path and is omitted;
`max_feedback`, `user_ttl_days` and `learning_rate` are the instance
attributes copied from `Config` (environment-configurable). -/
structure RecState where
  user_interactions : List (String × UserData)
  feedback_data : List FeedbackItem
  feature_weights : List (String × ℚ)
  item_similarities : List (Nat × List (Nat × ℚ))
  popular_items : List Nat
  total_recommendations : Nat
  total_feedback : Nat
  avg_rating : ℚ
  model_updates : Nat
  max_feedback : Nat
  user_ttl_days : Nat
  learning_rate : ℚ
deriving DecidableEq, Repr

/-- Initial `self.feature_weights`. -/
def initialFeatureWeights : List (String × ℚ) :=
  [("role_match", 3), ("level_match", 2), ("industry_match", 2), ("goal_match", 3),
   ("semantic_similarity", 4), ("collaborative_score", 7 / 2), ("feedback_boost", 2),
   ("category_match", 5 / 2)]

/-- Interaction-type weight table of `record_interaction`. -/
def interactionWeights : List (String × ℚ) :=
  [("view", 1 / 10), ("click", 3 / 10), ("rate", 1), ("select", 1 / 2)]

/-- Similarity-recompute milestones of `record_interaction`. -/
def updateThresholds : List Nat := [5, 10, 20, 30, 50, 100, 200, 500]

/-- State after `__init__` with default configuration and an empty database:
no users, no feedback, no similarity cache, and the cold-start popularity
fallback (first 10 catalog ids, set by the initial `_update_popular_items`). -/
def initialState : RecState :=
  { user_interactions := []
    feedback_data := []
    feature_weights := initialFeatureWeights
    item_similarities := []
    popular_items := (ASSESSMENTS.take 10).map (·.id)
    total_recommendations := 0
    total_feedback := 0
    avg_rating := 0
    model_updates := 0
    max_feedback := 5000
    user_ttl_days := 30
    learning_rate := 1 / 100 }

/-! ## Derived-data maintenance -/

/-- The `1e-10` epsilon used in score normalization. -/
def eps : ℚ := 1 / 10000000000

/-- Model of `_cleanup_old_data`: drop users whose `last_activity` is older
than `now - user_ttl_days`, then trim the feedback buffer to the most recent
`max_feedback` entries when it is longer than that (Python
`self.feedback_data[-self.max_feedback:]`). -/
def cleanupOldData (st : RecState) (now : ℚ) : RecState :=
  let cutoff := now - (st.user_ttl_days : ℚ)
  let st1 := { st with
    user_interactions := st.user_interactions.filter
      (fun p => ¬ (p.2.last_activity < cutoff)) }
  if st1.feedback_data.length > st1.max_feedback then
    { st1 with feedback_data := pyLastSlice st1.feedback_data st1.max_feedback }
  else st1

/-- Model of `_update_popular_items`: per-item sums of accumulated interaction
weights plus `rating / 5` per feedback event, sorted descending (Python
`sorted(..., key=lambda x: x[1], reverse=True)`), top 10 kept, with the first
10 catalog items as the empty-data fallback. -/
def updatePopularItems (st : RecState) : RecState :=
  let scores0 : List (Nat × ℚ) :=
    st.user_interactions.foldl
      (fun acc p => p.2.items.foldl
        (fun acc2 q => modifyValD acc2 q.1 0 (· + q.2)) acc) []
  let scores : List (Nat × ℚ) :=
    st.feedback_data.foldl
      (fun acc fb => modifyValD acc fb.assessment_id 0 (· + fb.rating / 5)) scores0
  let pops := ((pySortByDesc (fun p => p.2) scores).take 10).map Prod.fst
  if pops.isEmpty then
    { st with popular_items := (ASSESSMENTS.take 10).map (·.id) }
  else
    { st with popular_items := pops }

/-- The neighbor candidates built for the item at index `i` in
`_compute_item_similarities`: `[(items[j], sims[i][j]) for j in range(len(items)) if i != j]`. -/
def topFor (items : List Nat) (sims : Nat → Nat → ℚ) (i : Nat) : List (Nat × ℚ) :=
  ((pyEnum items).filter (fun p => p.1 ≠ i)).map (fun p => (p.2, sims i p.1))

/-- The cache-rebuild loop of `_compute_item_similarities`: for each
enumerated item, store its top-20 neighbor list (descending similarity,
excluding itself by index). -/
def rebuildCache (items : List Nat) (sims : Nat → Nat → ℚ)
    (cache : List (Nat × List (Nat × ℚ))) : List (Nat × List (Nat × ℚ)) :=
  (pyEnum items).foldl
    (fun c p => setVal c p.2 ((pySortByDesc (fun q => q.2) (topFor items sims p.1)).take 20))
    cache

/-- Total of all accumulated interaction weights; equals `matrix.sum()` of the
dense users×items matrix, since every stored (user, item) weight occupies
exactly one matrix cell. -/
def interactionWeightSum (st : RecState) : ℚ :=
  st.user_interactions.foldl
    (fun acc p => p.2.items.foldl (fun a q => a + q.2) acc) 0

/-- The distinct item ids occurring in the interaction store (`list(all_items)`
built from a Python set; the set's iteration order is unspecified, modeled by
`dedup` of the collection order — no proved property depends on the order). -/
def interactionItems (st : RecState) : List Nat :=
  (st.user_interactions.foldl (fun acc p => acc ++ p.2.items.map Prod.fst) []).dedup

/-- Model of `_compute_item_similarities`.  The sklearn call
`cosine_similarity(matrix.T + 1e-10)` is an external numerical routine; its
resulting item-item matrix enters the model as the parameter `sims` (indexed
by positions in `interactionItems`).  Skips when fewer than 2 users or items,
or when the matrix is all zero; otherwise, for each item, stores its candidate
list sorted by descending similarity (stable), truncated to 20. -/
def computeItemSimilarities (st : RecState) (sims : Nat → Nat → ℚ) : RecState :=
  let users := st.user_interactions.map Prod.fst
  let items := interactionItems st
  if users.length < 2 ∨ items.length < 2 then st
  else if interactionWeightSum st > 0 then
    { st with item_similarities := rebuildCache items sims st.item_similarities }
  else st

/-! ## `record_interaction` and the online learner -/

/-- The rating-validation predicate of `record_interaction`:
`rating is not None and not (1 <= rating <= 5)`. -/
def ratingInvalid : Option ℚ → Bool
  | none => false
  | some r => ¬ (1 ≤ r ∧ r ≤ 5)

/-- Mean of the stored ratings (`np.mean([f['rating'] for f in self.feedback_data])`;
only evaluated right after an append, so the list is nonempty). -/
def ratingMean (l : List FeedbackItem) : ℚ :=
  (l.map (·.rating)).sum / (l.length : ℚ)

/-- Clamp applied after each gradient step: `max(0.1, min(10, w))`. -/
def clampW (x : ℚ) : ℚ := max (1 / 10) (min 10 x)

/-- One iteration of the online-learning loop body: for a context feature
`(feat, val)`, if `feat in self.feature_weights and val != 0`, add
`learning_rate * (error * val)` to the weight and clamp it to `[0.1, 10]`. -/
def learnStep (lr error : ℚ) (w : List (String × ℚ)) (p : String × ℚ) :
    List (String × ℚ) :=
  if containsKey w p.1 = true ∧ p.2 ≠ 0 then
    setVal w p.1 (clampW (getD w p.1 0 + lr * (error * p.2)))
  else w

/-- The whole online-learning loop over `context['features'].items()`. -/
def learnAll (lr error : ℚ) (w : List (String × ℚ)) (fs : List (String × ℚ)) :
    List (String × ℚ) :=
  fs.foldl (learnStep lr error) w

/-- The online-learning block of `record_interaction`, guarded by
`context and 'features' in context and 'predicted_score' in context`. -/
def onlineLearning (st : RecState) (r : ℚ) (context : Option InteractionCtx) :
    RecState :=
  match context with
  | some c =>
    match c.features, c.predicted_score with
    | some fs, some ps =>
      let error := r / 5 - ps / 20
      { st with
        feature_weights := learnAll st.learning_rate error st.feature_weights fs
        model_updates := st.model_updates + 1 }
    | _, _ => st
  | none => st

/-- Total interaction count used by the recompute trigger:
`sum(len(d['items']) for d in self.user_interactions.values())`. -/
def totalInteractionCount (st : RecState) : Nat :=
  st.user_interactions.foldl (fun acc p => acc + p.2.items.length) 0

/-- The trailing maintenance block of `record_interaction` (lines 541-557):
similarity/popularity recompute at the interaction-count milestones, a cleanup
pass when the tracked-user count is a multiple of 50, and a popularity refresh
every 20 feedbacks. -/
def postInteraction (st : RecState) (now : ℚ) (sims : Nat → Nat → ℚ) : RecState :=
  let ti := totalInteractionCount st
  let st1 :=
    if ti ∈ updateThresholds ∨ ti % 50 = 0 then
      updatePopularItems (computeItemSimilarities st sims)
    else st
  let st2 :=
    if st1.user_interactions.length % 50 = 0 then cleanupOldData st1 now else st1
  if st2.total_feedback % 20 = 0 then updatePopularItems st2 else st2

/-- Model of `record_interaction`.  A missing `user_id` is the empty string, a
missing `assessment_id` is 0 (Python falsiness of `str` and `int`).  The
returned pair is (escaped exception if any, state after the call) — a Python
exception leaves every already-performed mutation in place, so the post-state
accompanies the error.  `dbFails` models whether `DatabasePersistence.save_feedback`
raises (it logs and re-raises on any database failure). -/
def recordInteraction (st : RecState) (user_id : String) (assessment_id : Nat)
    (interaction_type : String) (rating : Option ℚ) (context : Option InteractionCtx)
    (now : ℚ) (dbFails : Bool) (sims : Nat → Nat → ℚ) : Option RecErr × RecState :=
  -- validation block (executed under `self.interaction_lock`)
  if user_id = "" ∨ assessment_id = 0 then
    (some (RecErr.validation "user_id and assessment_id are required"), st)
  else if ratingInvalid rating then
    (some (RecErr.validation "Rating must be between 1 and 5"), st)
  else
    let w0 := getD interactionWeights interaction_type (1 / 10)
    -- `if rating:` — a rating that survived validation lies in [1,5], hence is truthy
    let w := match rating with
      | some r => w0 * (r / 5)
      | none => w0
    let ud := getD st.user_interactions user_id ⟨[], now⟩
    let st1 := { st with
      user_interactions := setVal st.user_interactions user_id
        ⟨modifyValD ud.items assessment_id 0 (· + w), now⟩ }
    match rating with
    | none => (none, postInteraction st1 now sims)
    | some r =>
      let fb : FeedbackItem := ⟨user_id, assessment_id, r, now⟩
      let st2 := { st1 with feedback_data := st1.feedback_data ++ [fb] }
      if dbFails then
        -- `self.db.save_feedback` raised: the exception escapes `record_interaction`,
        -- the in-memory append above stays, everything below is skipped
        (some RecErr.db, st2)
      else
        let st3 := { st2 with
          total_feedback := st2.total_feedback + 1
          avg_rating := ratingMean st2.feedback_data }
        (none, postInteraction (onlineLearning st3 r context) now sims)

/-- Test for the validation `ValueError`s among the outcomes of
`record_interaction`. -/
def isValidationErr : Option RecErr → Bool
  | some (RecErr.validation _) => true
  | _ => false

/-! ## Scoring (`get_advanced_recommendations`) -/

/-- Normalization of the raw semantic scores:
`sems = sems / (sems.max() + 1e-10)`. -/
def normalizeSems (raws : List ℚ) : List ℚ :=
  raws.map (fun x => x / (maxQ raws + eps))

/-- Collaborative score of candidate item `aid` for user `uid` (the inner
loop over the user's interaction history): accumulate `sim * past_score` and
`|sim|` over past items present in the similarity cache, then divide. -/
def collabScoreFor (st : RecState) (uid : String) (aid : Nat) : ℚ :=
  let history := (getD st.user_interactions uid ⟨[], 0⟩).items
  let acc := history.foldl
    (fun (sc : ℚ × ℚ) p =>
      if containsKey st.item_similarities p.1 = true then
        let sim := getD (getD st.item_similarities p.1 []) aid 0
        (sc.1 + sim * p.2, sc.2 + |sim|)
      else sc)
    (0, 0)
  if acc.2 > 0 then acc.1 / acc.2 else 0

/-- One entry of the ranked result list.  `idx` is the `enumerate` position in
the catalog (it determines the `'assessment'` payload); `match_percentage`
and the `score_breakdown` fields mirror the result dict. -/
structure RecResult where
  idx : Nat
  assessment_id : Nat
  total_score : ℚ
  match_percentage : ℤ
  content : ℚ
  collaborative : ℚ
  feedback : ℚ
  popularity : ℚ
  is_new_user : Bool
deriving DecidableEq, Repr

/-- The per-assessment scoring loop of `get_advanced_recommendations`
(`results` built in catalog/enumeration order).  The query-side TF-IDF
transform and the cosine against the assessment vectors are external sklearn
routines: their output, the raw similarity of the (expanded) query to each
catalog item, enters as `semsRaw`; `np.exp` enters as `expFn`. -/
def scoreAssessments (st : RecState) (user_id role level industry goal : String)
    (semsRaw : List ℚ) (expFn : ℚ → ℚ) : List RecResult :=
  let is_new := containsKey st.user_interactions user_id = false
  let sems := normalizeSems semsRaw
  let collab : Nat → ℚ :=
    if ¬ is_new ∧ containsKey st.user_interactions user_id = true then
      fun aid => collabScoreFor st user_id aid
    else
      fun _ => 0
  (pyEnum ASSESSMENTS).map (fun p =>
    let i := p.1
    let a := p.2
    let rule_score : ℚ :=
      (if role ≠ "" ∧ anyContains a.suitable_for.roles role = true then 2 else 0)
      + (if goal ≠ "" ∧ anyContains a.suitable_for.goals goal = true then 2 else 0)
    let level_match : ℚ :=
      if level ≠ "" ∧ level ∈ a.suitable_for.levels then 1 else 0
    let ind_match : ℚ :=
      if industry ≠ "" ∧ anyContains a.suitable_for.industries industry = true then 1 else 0
    let recent_fb := (pyLastSlice st.feedback_data 100).filter
      (fun f => f.assessment_id = a.id)
    let fb_boost : ℚ :=
      if recent_fb ≠ [] then
        (ratingMean recent_fb - 3) * (3 / 10)
      else 0
    let semI := sems.getD i 0
    let features : List (String × ℚ) :=
      [("role_match", rule_score), ("level_match", level_match),
       ("industry_match", ind_match), ("semantic_similarity", semI),
       ("collaborative_score", collab a.id), ("feedback_boost", fb_boost)]
    let total0 := (features.map (fun q => getD st.feature_weights q.1 1 * q.2)).sum
    let total :=
      if is_new ∧ a.id ∈ st.popular_items then total0 + 2 else total0
    let max_possible := (st.feature_weights.map Prod.snd).sum + 2
    let raw_pct := total / max_possible * 100
    let match_pct0 := pyInt (100 / (1 + expFn (-(5 / 100) * (raw_pct - 50))))
    { idx := i
      assessment_id := a.id
      total_score := pyRound2 total
      match_percentage := max 0 (min 100 match_pct0)
      content := pyRound2 (rule_score * 2 + semI * 4)
      collaborative := pyRound2 (collab a.id * (7 / 2))
      feedback := pyRound2 (fb_boost * 2)
      popularity := if is_new ∧ a.id ∈ st.popular_items then 2 else 0
      is_new_user := is_new })

/-- Model of `get_advanced_recommendations`: score every assessment in catalog
order, sort stably by descending (rounded) total score, return the first
`top_k`.  (The function also bumps a request counter and touches
`user_profiles`; neither is read by any claim.) -/
def getAdvancedRecommendations (st : RecState) (user_id role level industry goal : String)
    (top_k : Nat) (semsRaw : List ℚ) (expFn : ℚ → ℚ) : List RecResult :=
  (pySortByDesc (fun r => r.total_score)
    (scoreAssessments st user_id role level industry goal semsRaw expFn)).take top_k

/-! ## Corpus construction (`_initialize_tfidf`) -/

/-- The text fed to the TF-IDF vectorizer for one catalog item, exactly as the
source builds it: a space-join of seven components with Python string
repetition (`a['name'] * 3`, `a['description'] * 2`, roles and goals joined
then repeated twice), lower-cased. -/
def corpusText (a : Assessment) : String :=
  (String.intercalate " "
    [pyRepeat a.name 3,
     pyRepeat a.description 2,
     a.category,
     pyRepeat (String.intercalate " " a.suitable_for.roles) 2,
     pyRepeat (String.intercalate " " a.suitable_for.goals) 2,
     String.intercalate " " a.key_features,
     String.intercalate " " a.benefits] |> pyLower)

/-- The corpus text as the specification words it: name repeated 3 times,
description repeated 2 times, and every other text field (category, roles,
goals, key_features, benefits) included exactly once.  Written from the
spec sentence, for comparison with `corpusText`. -/
def corpusTextSpec (a : Assessment) : String :=
  (String.intercalate " "
    [pyRepeat a.name 3,
     pyRepeat a.description 2,
     a.category,
     String.intercalate " " a.suitable_for.roles,
     String.intercalate " " a.suitable_for.goals,
     String.intercalate " " a.key_features,
     String.intercalate " " a.benefits] |> pyLower)

/-- Weighted concatenation with an explicit per-field repetition count, the
shape the amended claim describes. -/
def weightedCorpus (fields : List (String × Nat)) : String :=
  (String.intercalate " " (fields.map (fun p => pyRepeat p.1 p.2)) |> pyLower)

/-! ## Invariant predicates -/

/-- Shape invariant of one similarity-cache entry: at most 20 neighbors, the
source item absent, similarities in non-increasing order. -/
def NeighborOk (e : Nat × List (Nat × ℚ)) : Prop :=
  e.2.length ≤ 20 ∧ (∀ p ∈ e.2, p.1 ≠ e.1) ∧
    e.2.Pairwise (fun p q => q.2 ≤ p.2)

instance (e : Nat × List (Nat × ℚ)) : Decidable (NeighborOk e) := by
  unfold NeighborOk
  infer_instance

/-! ## Association-list lemmas -/

theorem findVal?_setVal_self {κ α : Type} [DecidableEq κ] (l : List (κ × α)) (k : κ) (v : α) :
    findVal? (setVal l k v) k = some v := by
  induction l with
  | nil => simp [setVal, findVal?]
  | cons hd t ih =>
    obtain ⟨k1, v1⟩ := hd
    by_cases h : k1 = k
    · simp [setVal, h, findVal?]
    · simp [setVal, h, findVal?, ih]

theorem findVal?_setVal_ne {κ α : Type} [DecidableEq κ] (l : List (κ × α)) (k k1 : κ) (v : α)
    (h : k ≠ k1) : findVal? (setVal l k v) k1 = findVal? l k1 := by
  induction l with
  | nil => simp [setVal, findVal?, h]
  | cons hd t ih =>
    obtain ⟨k2, v2⟩ := hd
    by_cases h2 : k2 = k
    · subst h2
      simp [setVal, findVal?, h]
    · simp [setVal, h2, findVal?, ih]

theorem getD_setVal_self {κ α : Type} [DecidableEq κ] (l : List (κ × α)) (k : κ) (v d : α) :
    getD (setVal l k v) k d = v := by
  simp [getD, findVal?_setVal_self]

theorem getD_setVal_ne {κ α : Type} [DecidableEq κ] (l : List (κ × α)) (k k1 : κ) (v d : α)
    (h : k ≠ k1) : getD (setVal l k v) k1 d = getD l k1 d := by
  simp [getD, findVal?_setVal_ne _ _ _ _ h]

theorem mem_setVal {κ α : Type} [DecidableEq κ] (l : List (κ × α)) (k : κ) (v : α)
    (q : κ × α) (hq : q ∈ setVal l k v) : q = (k, v) ∨ q ∈ l := by
  induction l with
  | nil =>
    simp [setVal] at hq
    exact Or.inl hq
  | cons hd t ih =>
    obtain ⟨k1, v1⟩ := hd
    by_cases h : k1 = k
    · simp [setVal, h] at hq
      rcases hq with h1 | h1
      · exact Or.inl h1
      · exact Or.inr (List.mem_cons_of_mem _ h1)
    · simp only [setVal, if_neg h, List.mem_cons] at hq
      rcases hq with h1 | h1
      · exact Or.inr (h1 ▸ List.mem_cons_self _ _)
      · rcases ih h1 with h2 | h2
        · exact Or.inl h2
        · exact Or.inr (List.mem_cons_of_mem _ h2)

theorem findVal?_cons {κ α : Type} [DecidableEq κ] (k1 : κ) (v1 : α) (t : List (κ × α))
    (k0 : κ) : findVal? ((k1, v1) :: t) k0 = if k1 = k0 then some v1 else findVal? t k0 :=
  rfl

theorem containsKey_setVal_of_contains {κ α : Type} [DecidableEq κ] (l : List (κ × α))
    (k : κ) (v : α) (hk : containsKey l k = true) (k1 : κ) :
    containsKey (setVal l k v) k1 = containsKey l k1 := by
  by_cases h : k = k1
  · subst h
    simp only [containsKey, findVal?_setVal_self, Option.isSome_some]
    exact hk.symm
  · simp [containsKey, findVal?_setVal_ne _ _ _ _ h]

theorem getD_of_not_contains {κ α : Type} [DecidableEq κ] (l : List (κ × α)) (k : κ) (d : α)
    (h : containsKey l k = false) : getD l k d = d := by
  cases hf : findVal? l k with
  | none => simp [getD, hf]
  | some v =>
    rw [containsKey, hf] at h
    simp at h

theorem findVal?_filter {κ α : Type} [DecidableEq κ] (l : List (κ × α)) (k : κ) (v : α)
    (p : κ × α → Bool) (h : findVal? l k = some v) (hp : p (k, v) = true) :
    findVal? (l.filter p) k = some v := by
  induction l with
  | nil => simp [findVal?] at h
  | cons hd t ih =>
    obtain ⟨k1, v1⟩ := hd
    rw [List.filter_cons]
    by_cases hk : k1 = k
    · subst hk
      rw [findVal?_cons, if_pos rfl] at h
      obtain rfl : v1 = v := Option.some.inj h
      rw [if_pos hp, findVal?_cons, if_pos rfl]
    · rw [findVal?_cons, if_neg hk] at h
      by_cases hf : p (k1, v1) = true
      · rw [if_pos hf, findVal?_cons, if_neg hk]
        exact ih h
      · rw [if_neg hf]
        exact ih h

/-! ## Enumeration lemmas -/

theorem enumList_mem_val {α : Type} (l : List α) (n j : Nat) (x : α)
    (h : (j, x) ∈ enumList n l) : x ∈ l := by
  induction l generalizing n with
  | nil => simp [enumList] at h
  | cons a t ih =>
    simp only [enumList, List.mem_cons, Prod.mk.injEq] at h
    rcases h with ⟨_, rfl⟩ | h
    · exact List.mem_cons_self _ _
    · exact List.mem_cons_of_mem _ (ih _ h)

theorem enumList_nodup_val {α : Type} (l : List α) (hl : l.Nodup) (n i j : Nat) (x y : α)
    (hx : (i, x) ∈ enumList n l) (hy : (j, y) ∈ enumList n l) (hij : i ≠ j) : x ≠ y := by
  induction l generalizing n with
  | nil => simp [enumList] at hx
  | cons a t ih =>
    obtain ⟨ha, ht⟩ := List.nodup_cons.mp hl
    simp only [enumList, List.mem_cons, Prod.mk.injEq] at hx hy
    rcases hx with ⟨rfl, rfl⟩ | hx
    · rcases hy with ⟨rfl, rfl⟩ | hy
      · exact absurd rfl hij
      · intro hxy
        exact ha (hxy ▸ enumList_mem_val t _ _ _ hy)
    · rcases hy with ⟨rfl, rfl⟩ | hy
      · intro hxy
        exact ha (hxy ▸ enumList_mem_val t _ _ _ hx)
      · exact ih ht _ hx hy

theorem enumList_fst_ge {α : Type} (l : List α) (n j : Nat) (x : α)
    (h : (j, x) ∈ enumList n l) : n ≤ j := by
  induction l generalizing n with
  | nil => simp [enumList] at h
  | cons a t ih =>
    simp only [enumList, List.mem_cons, Prod.mk.injEq] at h
    rcases h with ⟨rfl, _⟩ | h
    · exact le_refl _
    · exact le_trans (Nat.le_succ n) (ih _ h)

theorem enumList_pairwise_fst {α : Type} (l : List α) (n : Nat) :
    (enumList n l).Pairwise (fun p q => p.1 < q.1) := by
  induction l generalizing n with
  | nil => exact List.Pairwise.nil
  | cons a t ih =>
    refine List.pairwise_cons.mpr ⟨?_, ih (n + 1)⟩
    intro q hq
    exact lt_of_lt_of_le (Nat.lt_succ_self n) (enumList_fst_ge t _ _ _ hq)

/-! ## Stable descending sort lemmas -/

/-- The combined order produced by a stable descending sort of elements whose
original positions (`idx`) are strictly increasing: strictly larger key first,
and original order on key ties. -/
def SortRel {α : Type} (key : α → ℚ) (idx : α → Nat) (a b : α) : Prop :=
  key b < key a ∨ (key a = key b ∧ idx a < idx b)

theorem pairwise_orderedInsert {α : Type} (key : α → ℚ) (idx : α → Nat) (a : α) (l : List α)
    (hl : l.Pairwise (SortRel key idx)) (ha : ∀ b ∈ l, idx a < idx b) :
    (List.orderedInsert (fun x y => key y ≤ key x) a l).Pairwise (SortRel key idx) := by
  induction l with
  | nil => simp [List.orderedInsert]
  | cons b t ih =>
    obtain ⟨hbt, htp⟩ := List.pairwise_cons.mp hl
    by_cases hab : key b ≤ key a
    · rw [List.orderedInsert, if_pos hab]
      refine List.pairwise_cons.mpr ⟨?_, hl⟩
      intro c hc
      rcases List.mem_cons.mp hc with rfl | hct
      · rcases lt_or_eq_of_le hab with hlt | heq
        · exact Or.inl hlt
        · exact Or.inr ⟨heq.symm, ha c (List.mem_cons_self _ _)⟩
      · have hcb : key c ≤ key b := by
          rcases hbt c hct with hlt | ⟨heq, _⟩
          · exact le_of_lt hlt
          · exact le_of_eq heq.symm
        rcases lt_or_eq_of_le (le_trans hcb hab) with hlt | heq
        · exact Or.inl hlt
        · exact Or.inr ⟨heq.symm, ha c (List.mem_cons_of_mem _ hct)⟩
    · rw [List.orderedInsert, if_neg hab]
      have hba : key a < key b := lt_of_not_le hab
      refine List.pairwise_cons.mpr ⟨?_, ih htp (fun c hc => ha c (List.mem_cons_of_mem _ hc))⟩
      intro c hc
      rcases (List.mem_orderedInsert _).mp hc with rfl | hct
      · exact Or.inl hba
      · exact hbt c hct

theorem pairwise_pySortByDesc {α : Type} (key : α → ℚ) (idx : α → Nat) (l : List α)
    (h : l.Pairwise (fun a b => idx a < idx b)) :
    (pySortByDesc key l).Pairwise (SortRel key idx) := by
  induction l with
  | nil => exact List.Pairwise.nil
  | cons a t ih =>
    obtain ⟨hat, htp⟩ := List.pairwise_cons.mp h
    show (List.orderedInsert _ a (List.insertionSort _ t)).Pairwise (SortRel key idx)
    refine pairwise_orderedInsert key idx a _ (ih htp) ?_
    intro b hb
    exact hat b ((List.perm_insertionSort _ t).mem_iff.mp hb)

theorem sortRel_key_le {α : Type} (key : α → ℚ) (idx : α → Nat) (a b : α)
    (h : SortRel key idx a b) : key b ≤ key a := by
  rcases h with hlt | ⟨heq, _⟩
  · exact le_of_lt hlt
  · exact le_of_eq heq.symm

/-- Sortedness (non-increasing key) of the stable descending sort, with no
assumption on the input. -/
theorem pairwise_pySortByDesc_key {α : Type} (key : α → ℚ) (l : List α) :
    (pySortByDesc key l).Pairwise (fun a b => key b ≤ key a) := by
  haveI : IsTotal α (fun a b => key b ≤ key a) := ⟨fun a b => le_total (key b) (key a)⟩
  haveI : IsTrans α (fun a b => key b ≤ key a) := ⟨fun _ _ _ h1 h2 => le_trans h2 h1⟩
  exact List.sorted_insertionSort _ l

theorem mem_pySortByDesc {α : Type} (key : α → ℚ) (l : List α) (x : α) :
    x ∈ pySortByDesc key l ↔ x ∈ l :=
  (List.perm_insertionSort _ l).mem_iff

/-! ## Maximum lemmas -/

theorem init_le_foldl_max (l : List ℚ) (b : ℚ) : b ≤ l.foldl max b := by
  induction l generalizing b with
  | nil => exact le_refl _
  | cons a t ih => exact le_trans (le_max_left b a) (ih (max b a))

theorem mem_le_foldl_max (l : List ℚ) (x : ℚ) (hx : x ∈ l) (b : ℚ) :
    x ≤ l.foldl max b := by
  induction l generalizing b with
  | nil => cases hx
  | cons a t ih =>
    rcases List.mem_cons.mp hx with rfl | hm
    · exact le_trans (le_max_right b x) (init_le_foldl_max t _)
    · exact ih hm _

theorem le_maxQ (l : List ℚ) (x : ℚ) (hx : x ∈ l) : x ≤ maxQ l := by
  cases l with
  | nil => cases hx
  | cons a t =>
    rcases List.mem_cons.mp hx with rfl | hm
    · exact init_le_foldl_max t x
    · exact mem_le_foldl_max t x hm a

theorem foldl_max_div (l : List ℚ) (c : ℚ) (hc : 0 ≤ c) (b : ℚ) :
    (l.map (fun x => x / c)).foldl max (b / c) = l.foldl max b / c := by
  induction l generalizing b with
  | nil => rfl
  | cons a t ih =>
    simp only [List.map_cons, List.foldl_cons]
    rw [max_div_div_right hc, ih]

theorem maxQ_map_div (l : List ℚ) (c : ℚ) (hc : 0 ≤ c) (hne : l ≠ []) :
    maxQ (l.map (fun x => x / c)) = maxQ l / c := by
  cases l with
  | nil => exact absurd rfl hne
  | cons a t =>
    show (t.map (fun x => x / c)).foldl max (a / c) = t.foldl max a / c
    exact foldl_max_div t c hc a

/-! ## Field-preservation lemmas for the maintenance operations -/

theorem computeItemSimilarities_user_interactions (st : RecState) (sims : Nat → Nat → ℚ) :
    (computeItemSimilarities st sims).user_interactions = st.user_interactions := by
  unfold computeItemSimilarities
  dsimp only
  split
  · rfl
  · split <;> rfl

theorem computeItemSimilarities_feature_weights (st : RecState) (sims : Nat → Nat → ℚ) :
    (computeItemSimilarities st sims).feature_weights = st.feature_weights := by
  unfold computeItemSimilarities
  dsimp only
  split
  · rfl
  · split <;> rfl

theorem computeItemSimilarities_feedback_data (st : RecState) (sims : Nat → Nat → ℚ) :
    (computeItemSimilarities st sims).feedback_data = st.feedback_data := by
  unfold computeItemSimilarities
  dsimp only
  split
  · rfl
  · split <;> rfl

theorem computeItemSimilarities_user_ttl_days (st : RecState) (sims : Nat → Nat → ℚ) :
    (computeItemSimilarities st sims).user_ttl_days = st.user_ttl_days := by
  unfold computeItemSimilarities
  dsimp only
  split
  · rfl
  · split <;> rfl

theorem computeItemSimilarities_total_feedback (st : RecState) (sims : Nat → Nat → ℚ) :
    (computeItemSimilarities st sims).total_feedback = st.total_feedback := by
  unfold computeItemSimilarities
  dsimp only
  split
  · rfl
  · split <;> rfl

theorem updatePopularItems_user_interactions (st : RecState) :
    (updatePopularItems st).user_interactions = st.user_interactions := by
  unfold updatePopularItems
  dsimp only
  split <;> rfl

theorem updatePopularItems_feature_weights (st : RecState) :
    (updatePopularItems st).feature_weights = st.feature_weights := by
  unfold updatePopularItems
  dsimp only
  split <;> rfl

theorem updatePopularItems_feedback_data (st : RecState) :
    (updatePopularItems st).feedback_data = st.feedback_data := by
  unfold updatePopularItems
  dsimp only
  split <;> rfl

theorem updatePopularItems_user_ttl_days (st : RecState) :
    (updatePopularItems st).user_ttl_days = st.user_ttl_days := by
  unfold updatePopularItems
  dsimp only
  split <;> rfl

theorem updatePopularItems_total_feedback (st : RecState) :
    (updatePopularItems st).total_feedback = st.total_feedback := by
  unfold updatePopularItems
  dsimp only
  split <;> rfl

theorem cleanupOldData_feature_weights (st : RecState) (now : ℚ) :
    (cleanupOldData st now).feature_weights = st.feature_weights := by
  unfold cleanupOldData
  dsimp only
  split <;> rfl

theorem postInteraction_feature_weights (st : RecState) (now : ℚ) (sims : Nat → Nat → ℚ) :
    (postInteraction st now sims).feature_weights = st.feature_weights := by
  unfold postInteraction
  dsimp only
  split <;> split <;> split <;>
    simp [updatePopularItems_feature_weights, cleanupOldData_feature_weights,
      computeItemSimilarities_feature_weights]

theorem onlineLearning_user_interactions (st : RecState) (r : ℚ)
    (context : Option InteractionCtx) :
    (onlineLearning st r context).user_interactions = st.user_interactions := by
  unfold onlineLearning
  cases context with
  | none => rfl
  | some c =>
    obtain ⟨cf, cps⟩ := c
    cases cf <;> cases cps <;> rfl

theorem onlineLearning_user_ttl_days (st : RecState) (r : ℚ)
    (context : Option InteractionCtx) :
    (onlineLearning st r context).user_ttl_days = st.user_ttl_days := by
  unfold onlineLearning
  cases context with
  | none => rfl
  | some c =>
    obtain ⟨cf, cps⟩ := c
    cases cf <;> cases cps <;> rfl

theorem cleanupOldData_user_interactions (s : RecState) (now : ℚ) :
    (cleanupOldData s now).user_interactions =
      s.user_interactions.filter
        (fun p => ¬ (p.2.last_activity < now - (s.user_ttl_days : ℚ))) := by
  unfold cleanupOldData
  dsimp only
  split <;> rfl

/-- Lookup of a user entry survives `postInteraction` when the entry's
`last_activity` is not older than the TTL cutoff (the cleanup filter keeps
it; the similarity and popularity recomputes never touch the store). -/
theorem postInteraction_user_lookup (st : RecState) (now : ℚ) (sims : Nat → Nat → ℚ)
    (uid : String) (ud : UserData)
    (h : findVal? st.user_interactions uid = some ud)
    (hkeep : ¬ (ud.last_activity < now - (st.user_ttl_days : ℚ))) :
    findVal? (postInteraction st now sims).user_interactions uid = some ud := by
  have step2 : ∀ s1 : RecState, s1.user_interactions = st.user_interactions →
      s1.user_ttl_days = st.user_ttl_days →
      findVal? (if s1.user_interactions.length % 50 = 0 then
          cleanupOldData s1 now else s1).user_interactions uid = some ud := by
    intro s1 h1 h2
    split
    · rw [cleanupOldData_user_interactions, h1, h2]
      refine findVal?_filter _ _ _ _ h ?_
      simpa using hkeep
    · rw [h1]
      exact h
  have step3 : ∀ (c : Prop) (_ : Decidable c) (s2 : RecState),
      findVal? (if c then updatePopularItems s2 else s2).user_interactions uid =
        findVal? s2.user_interactions uid := by
    intro c hc s2
    split
    · rw [updatePopularItems_user_interactions]
    · rfl
  have h1ui : ∀ (c : Prop) (_ : Decidable c),
      (if c then updatePopularItems (computeItemSimilarities st sims)
        else st).user_interactions = st.user_interactions := by
    intro c hc
    split
    · rw [updatePopularItems_user_interactions, computeItemSimilarities_user_interactions]
    · rfl
  have h1ttl : ∀ (c : Prop) (_ : Decidable c),
      (if c then updatePopularItems (computeItemSimilarities st sims)
        else st).user_ttl_days = st.user_ttl_days := by
    intro c hc
    split
    · rw [updatePopularItems_user_ttl_days, computeItemSimilarities_user_ttl_days]
    · rfl
  unfold postInteraction
  dsimp only
  rw [step3]
  exact step2 _ (h1ui _ _) (h1ttl _ _)

/-! ## C1: validation of `record_interaction` -/

theorem ratingInvalid_eq_true_iff (rating : Option ℚ) :
    ratingInvalid rating = true ↔ ∃ r, rating = some r ∧ (r < 1 ∨ 5 < r) := by
  cases rating with
  | none => simp [ratingInvalid]
  | some r => simp [ratingInvalid, not_and_or, not_le]

theorem recordInteraction_outcome_shape (st : RecState) (uid : String) (aid : Nat)
    (ity : String) (rating : Option ℚ) (ctx : Option InteractionCtx) (now : ℚ) (dbF : Bool)
    (sims : Nat → Nat → ℚ)
    (h1 : ¬ (uid = "" ∨ aid = 0)) (h2 : ratingInvalid rating = false) :
    (recordInteraction st uid aid ity rating ctx now dbF sims).1 = none ∨
      (recordInteraction st uid aid ity rating ctx now dbF sims).1 = some RecErr.db := by
  unfold recordInteraction
  rw [if_neg h1, h2, if_neg Bool.false_ne_true]
  dsimp only
  cases rating with
  | none => exact Or.inl rfl
  | some r =>
    cases dbF with
    | false => exact Or.inl rfl
    | true => exact Or.inr rfl

/-- C1.  `record_interaction` raises a validation error exactly when `user_id`
is missing, `assessment_id` is missing, or a supplied rating lies outside
[1, 5]; and on any such failure the whole engine state — interaction store,
feedback log, feature weights and metrics — is returned unchanged. -/
theorem record_interaction_validation_iff (st : RecState) (uid : String) (aid : Nat)
    (ity : String) (rating : Option ℚ) (ctx : Option InteractionCtx) (now : ℚ) (dbF : Bool)
    (sims : Nat → Nat → ℚ) :
    (isValidationErr (recordInteraction st uid aid ity rating ctx now dbF sims).1 = true ↔
      uid = "" ∨ aid = 0 ∨ ∃ r, rating = some r ∧ (r < 1 ∨ 5 < r))
    ∧ ((uid = "" ∨ aid = 0 ∨ ∃ r, rating = some r ∧ (r < 1 ∨ 5 < r)) →
        (recordInteraction st uid aid ity rating ctx now dbF sims).2 = st) := by
  by_cases h1 : uid = "" ∨ aid = 0
  · have e : recordInteraction st uid aid ity rating ctx now dbF sims =
        (some (RecErr.validation "user_id and assessment_id are required"), st) := by
      unfold recordInteraction
      rw [if_pos h1]
    rw [e]
    refine ⟨⟨fun _ => ?_, fun _ => rfl⟩, fun _ => rfl⟩
    rcases h1 with h | h
    · exact Or.inl h
    · exact Or.inr (Or.inl h)
  · by_cases h2 : ratingInvalid rating = true
    · have e : recordInteraction st uid aid ity rating ctx now dbF sims =
          (some (RecErr.validation "Rating must be between 1 and 5"), st) := by
        unfold recordInteraction
        rw [if_neg h1, if_pos h2]
      rw [e]
      have hex : ∃ r, rating = some r ∧ (r < 1 ∨ 5 < r) :=
        (ratingInvalid_eq_true_iff rating).mp h2
      exact ⟨⟨fun _ => Or.inr (Or.inr hex), fun _ => rfl⟩, fun _ => rfl⟩
    · have h2f : ratingInvalid rating = false := by
        cases hb : ratingInvalid rating
        · rfl
        · exact absurd hb h2
      have hsh := recordInteraction_outcome_shape st uid aid ity rating ctx now dbF sims h1 h2f
      have hnv : isValidationErr (recordInteraction st uid aid ity rating ctx now dbF sims).1
          = false := by
        rcases hsh with h | h <;> rw [h] <;> rfl
      have hnex : ¬ ∃ r, rating = some r ∧ (r < 1 ∨ 5 < r) := fun hx =>
        h2 ((ratingInvalid_eq_true_iff rating).mpr hx)
      have hrhs : ¬ (uid = "" ∨ aid = 0 ∨ ∃ r, rating = some r ∧ (r < 1 ∨ 5 < r)) := by
        intro hc
        rcases hc with hc | hc | hc
        · exact h1 (Or.inl hc)
        · exact h1 (Or.inr hc)
        · exact hnex hc
      constructor
      · rw [hnv]
        simp only [Bool.false_eq_true, false_iff]
        exact hrhs
      · intro hc
        exact absurd hc hrhs

/-- C1 witness: a call with rating 6 at a concrete state leaves the state
unchanged. -/
theorem record_interaction_validation_iff_witness :
    (recordInteraction initialState "u" 1 "view" (some 6) none 0 false (fun _ _ => 0)).2
      = initialState :=
  (record_interaction_validation_iff initialState "u" 1 "view" (some 6) none 0 false
      (fun _ _ => 0)).2
    (Or.inr (Or.inr ⟨6, rfl, Or.inr (by norm_num)⟩))

/-! ## C2: behaviour on persistence failure -/

/-- C2 counterexample: with a failing persistence adapter, a valid rated call
does not return normally — `DatabasePersistence.save_feedback` logs and
re-raises, and `record_interaction` does not catch, so the database error
escapes to the caller. -/
theorem record_interaction_db_error_escapes :
    (recordInteraction initialState "u1" 1 "rate" (some 5) none 0 true (fun _ _ => 0)).1
      = some RecErr.db := by
  decide

/-- C2 amended.  When `save_feedback` fails on a valid rated call, the error
propagates out of `record_interaction`; the in-memory append of the feedback
event is never rolled back (the event stays in the log), but the remaining
in-memory updates — metrics, online learning — are skipped. -/
theorem record_interaction_db_failure_effects (st : RecState) (uid : String) (aid : Nat)
    (ity : String) (r : ℚ) (ctx : Option InteractionCtx) (now : ℚ) (sims : Nat → Nat → ℚ)
    (h1 : ¬ (uid = "" ∨ aid = 0)) (hr : 1 ≤ r ∧ r ≤ 5) :
    (recordInteraction st uid aid ity (some r) ctx now true sims).1 = some RecErr.db
    ∧ (recordInteraction st uid aid ity (some r) ctx now true sims).2.feedback_data
        = st.feedback_data ++ [⟨uid, aid, r, now⟩]
    ∧ (recordInteraction st uid aid ity (some r) ctx now true sims).2.total_feedback
        = st.total_feedback
    ∧ (recordInteraction st uid aid ity (some r) ctx now true sims).2.model_updates
        = st.model_updates
    ∧ (recordInteraction st uid aid ity (some r) ctx now true sims).2.feature_weights
        = st.feature_weights := by
  have h2 : ratingInvalid (some r) = false := by
    simp [ratingInvalid, hr.1, hr.2]
  have e : recordInteraction st uid aid ity (some r) ctx now true sims =
      (some RecErr.db,
        { st with
          user_interactions := setVal st.user_interactions uid
            ⟨modifyValD (getD st.user_interactions uid ⟨[], now⟩).items aid 0
              (· + getD interactionWeights ity (1 / 10) * (r / 5)), now⟩
          feedback_data := st.feedback_data ++ [⟨uid, aid, r, now⟩] }) := by
    unfold recordInteraction
    rw [if_neg h1, h2, if_neg Bool.false_ne_true]
    rfl
  rw [e]
  exact ⟨rfl, rfl, rfl, rfl, rfl⟩

/-- C2 amended witness at a concrete call. -/
theorem record_interaction_db_failure_effects_witness :
    (recordInteraction initialState "u1" 1 "rate" (some 5) none 0 true
        (fun _ _ => 0)).2.total_feedback = initialState.total_feedback :=
  (record_interaction_db_failure_effects initialState "u1" 1 "rate" 5 none 0 (fun _ _ => 0)
    (by decide) (by norm_num)).2.2.1

/-! ## C3: feedback-log trimming -/

/-- A small reachable-shape state with `max_feedback = 1` (environment
configurable), one tracked user and one stored feedback event. -/
def stC3 : RecState :=
  { user_interactions := [("u", ⟨[(1, 1)], 0⟩)]
    feedback_data := [⟨"u", 1, 5, 0⟩]
    feature_weights := initialFeatureWeights
    item_similarities := []
    popular_items := [1]
    total_recommendations := 0
    total_feedback := 1
    avg_rating := 5
    model_updates := 0
    max_feedback := 1
    user_ttl_days := 30
    learning_rate := 1 / 100 }

/-- C3 counterexample: a rated `record_interaction` call that appends a
feedback event leaves the log at length 2, strictly above `max_feedback = 1`
— no trim runs, because `_cleanup_old_data` is only invoked when the
tracked-user count is a multiple of 50 (here it is 1). -/
theorem feedback_log_exceeds_max :
    (recordInteraction stC3 "u" 1 "rate" (some 5) none 0 false
        (fun _ _ => 0)).2.feedback_data.length = 2
    ∧ stC3.max_feedback = 1 := by
  decide

/-- C3 amended.  The feedback log is trimmed only by the `_cleanup_old_data`
pass (which `record_interaction` triggers only when the tracked-user count is
divisible by 50), not after every append; whenever that pass runs with
`max_feedback ≥ 1` it leaves at most `max_feedback` entries and keeps a
suffix of the log — the most recent entries. -/
theorem cleanup_trims_feedback (st : RecState) (now : ℚ) (h : 1 ≤ st.max_feedback) :
    (cleanupOldData st now).feedback_data.length ≤ st.max_feedback
    ∧ (cleanupOldData st now).feedback_data <:+ st.feedback_data := by
  unfold cleanupOldData
  dsimp only
  split
  case isTrue hgt =>
    constructor
    · show (pyLastSlice st.feedback_data st.max_feedback).length ≤ st.max_feedback
      unfold pyLastSlice
      rw [if_neg (by omega : ¬ st.max_feedback = 0), List.length_drop]
      omega
    · show pyLastSlice st.feedback_data st.max_feedback <:+ st.feedback_data
      unfold pyLastSlice
      rw [if_neg (by omega : ¬ st.max_feedback = 0)]
      exact List.drop_suffix _ _
  case isFalse hle =>
    constructor
    · show st.feedback_data.length ≤ st.max_feedback
      omega
    · exact List.suffix_refl _

/-- C3 amended witness: the cleanup pass at the concrete over-full state trims
to the bound. -/
theorem cleanup_trims_feedback_witness :
    (cleanupOldData stC3 0).feedback_data.length ≤ stC3.max_feedback :=
  (cleanup_trims_feedback stC3 0 (by decide)).1

/-! ## C4: normalized content-similarity scores -/

/-- C4 counterexample: with raw similarities `[1/2, 0]` — one of them nonzero
— the maximum normalized score is `(1/2) / (1/2 + 1e-10)`, which is not
exactly 1. -/
theorem normalized_max_not_one :
    ((1:ℚ)/2 ≠ 0) ∧ maxQ (normalizeSems [(1:ℚ)/2, 0]) ≠ 1 := by
  constructor
  · norm_num
  · show max ((1:ℚ)/2 / (max ((1:ℚ)/2) 0 + eps)) (0 / (max ((1:ℚ)/2) 0 + eps)) ≠ 1
    rw [max_eq_left (by norm_num : (0:ℚ) ≤ 1/2)]
    norm_num [eps]

/-- C4 amended.  For nonnegative raw scores with at least one positive, every
normalized score lies in `[0, 1)`, and the maximum normalized score equals
`m / (m + 1e-10)` (for `m` the maximum raw score), strictly below 1 — never
exactly 1.0. -/
theorem normalized_scores_range (raws : List ℚ) (hne : raws ≠ [])
    (hnn : ∀ x ∈ raws, 0 ≤ x) (hpos : ∃ x ∈ raws, 0 < x) :
    (∀ y ∈ normalizeSems raws, 0 ≤ y ∧ y < 1)
    ∧ maxQ (normalizeSems raws) = maxQ raws / (maxQ raws + eps)
    ∧ maxQ (normalizeSems raws) < 1 := by
  have heps : (0:ℚ) < eps := by norm_num [eps]
  have hm0 : 0 < maxQ raws := by
    obtain ⟨x, hx, hxpos⟩ := hpos
    exact lt_of_lt_of_le hxpos (le_maxQ raws x hx)
  have hden : 0 < maxQ raws + eps := by linarith
  have hmax : maxQ (normalizeSems raws) = maxQ raws / (maxQ raws + eps) := by
    unfold normalizeSems
    exact maxQ_map_div raws (maxQ raws + eps) (le_of_lt hden) hne
  refine ⟨?_, hmax, ?_⟩
  · intro y hy
    simp only [normalizeSems] at hy
    obtain ⟨x, hx, rfl⟩ := List.mem_map.mp hy
    refine ⟨div_nonneg (hnn x hx) (le_of_lt hden), ?_⟩
    rw [div_lt_one hden]
    have := le_maxQ raws x hx
    linarith
  · rw [hmax, div_lt_one hden]
    linarith

/-- C4 amended witness at the concrete raw-score vector `[1/2, 0]`. -/
theorem normalized_scores_range_witness :
    maxQ (normalizeSems [(1:ℚ)/2, 0]) = maxQ [(1:ℚ)/2, 0] / (maxQ [(1:ℚ)/2, 0] + eps) :=
  (normalized_scores_range [(1:ℚ)/2, 0] (by simp)
    (by norm_num [List.forall_mem_cons])
    ⟨1/2, by simp, by norm_num⟩).2.1

/-! ## C5: corpus field weighting -/

set_option maxRecDepth 200000 in
set_option maxHeartbeats 2000000 in
/-- C5 counterexample: already on the first catalog item the text the source
feeds to the vectorizer differs from the spec's description (the source
repeats the joined roles and the joined goals twice, the spec says once). -/
theorem corpus_text_mismatch :
    shlOPQ ∈ ASSESSMENTS ∧ corpusText shlOPQ ≠ corpusTextSpec shlOPQ := by
  constructor
  · exact List.mem_cons_self _ _
  · decide

/-- C5 amended.  The text fed to the vectorizer is the lower-cased space-join
with repetition weighting: name ×3, description ×2, roles ×2, goals ×2, and
category, key_features, benefits exactly once. -/
theorem corpus_text_weighting (a : Assessment) :
    corpusText a = weightedCorpus
      [(a.name, 3), (a.description, 2), (a.category, 1),
       (String.intercalate " " a.suitable_for.roles, 2),
       (String.intercalate " " a.suitable_for.goals, 2),
       (String.intercalate " " a.key_features, 1),
       (String.intercalate " " a.benefits, 1)] := by
  have h1 : ∀ s : String, pyRepeat s 1 = s := by
    intro s
    show String.join [s] = s
    simp [String.join]
  unfold corpusText weightedCorpus
  simp only [List.map_cons, List.map_nil, h1]

/-! ## C6: shape of the item-similarity cache -/

theorem foldl_setVal_all {κ β γ : Type} [DecidableEq κ] (P : κ × β → Prop)
    (key : γ → κ) (v : γ → β) :
    ∀ (l : List γ) (init : List (κ × β)),
      (∀ e ∈ init, P e) → (∀ g ∈ l, P (key g, v g)) →
      ∀ e ∈ l.foldl (fun cache g => setVal cache (key g) (v g)) init, P e := by
  intro l
  induction l with
  | nil =>
    intro init hinit _ e he
    exact hinit e he
  | cons g t ih =>
    intro init hinit hl e he
    simp only [List.foldl_cons] at he
    refine ih _ ?_ (fun g2 hg2 => hl g2 (List.mem_cons_of_mem _ hg2)) e he
    intro e2 he2
    rcases mem_setVal _ _ _ _ he2 with rfl | he3
    · exact hl g (List.mem_cons_self _ _)
    · exact hinit e2 he3

theorem topFor_entry_ok (items : List Nat) (hnd : items.Nodup) (sims : Nat → Nat → ℚ)
    (i : Nat) (x : Nat) (hmem : (i, x) ∈ pyEnum items) :
    NeighborOk (x, (pySortByDesc (fun q => q.2) (topFor items sims i)).take 20) := by
  refine ⟨?_, ?_, ?_⟩
  · simp [List.length_take]
  · intro p hp
    have hp2 : p ∈ pySortByDesc (fun q => q.2) (topFor items sims i) :=
      List.mem_of_mem_take hp
    have hp3 : p ∈ topFor items sims i := (mem_pySortByDesc _ _ _).mp hp2
    simp only [topFor] at hp3
    obtain ⟨q, hq, rfl⟩ := List.mem_map.mp hp3
    have hqne : q.1 ≠ i := by simpa using List.of_mem_filter hq
    have hqm : (q.1, q.2) ∈ pyEnum items := by
      rw [Prod.mk.eta]
      exact List.mem_of_mem_filter hq
    exact enumList_nodup_val items hnd 0 q.1 i q.2 x hqm hmem hqne
  · exact (pairwise_pySortByDesc_key (fun q : Nat × ℚ => q.2) (topFor items sims i)).sublist
      (List.take_sublist _ _)

theorem rebuildCache_all (items : List Nat) (hnd : items.Nodup) (sims : Nat → Nat → ℚ)
    (cache : List (Nat × List (Nat × ℚ))) (h : ∀ e ∈ cache, NeighborOk e) :
    ∀ e ∈ rebuildCache items sims cache, NeighborOk e := by
  unfold rebuildCache
  apply foldl_setVal_all
  · exact h
  · intro g hg
    refine topFor_entry_ok items hnd sims g.1 g.2 ?_
    rw [Prod.mk.eta]
    exact hg

/-- C6.  After every recompute of the item-item similarity cache, every stored
neighbor mapping has at most 20 entries, never contains the source item
itself, and is ordered by non-increasing similarity (given the same shape
held before — the initial cache is empty, so the invariant holds always). -/
theorem item_similarity_cache_shape (st : RecState) (sims : Nat → Nat → ℚ)
    (h : ∀ e ∈ st.item_similarities, NeighborOk e) :
    ∀ e ∈ (computeItemSimilarities st sims).item_similarities, NeighborOk e := by
  unfold computeItemSimilarities
  dsimp only
  split
  · exact h
  · split
    · exact rebuildCache_all _ (List.nodup_dedup _) sims _ h
    · exact h

/-- A concrete state with two users and two interacted items, so that the
similarity recompute actually fires. -/
def stC6 : RecState :=
  { user_interactions := [("a", ⟨[(1, 1)], 0⟩), ("b", ⟨[(2, 1)], 0⟩)]
    feedback_data := []
    feature_weights := initialFeatureWeights
    item_similarities := []
    popular_items := [1]
    total_recommendations := 0
    total_feedback := 0
    avg_rating := 0
    model_updates := 0
    max_feedback := 5000
    user_ttl_days := 30
    learning_rate := 1 / 100 }

/-- C6 witness: the entry actually computed for item 1 at the concrete state
satisfies the shape invariant. -/
theorem item_similarity_cache_shape_witness :
    NeighborOk (1, [((2:Nat), (0:ℚ))]) := by
  have hsum : interactionWeightSum stC6 > 0 := by
    norm_num [interactionWeightSum, stC6]
  have hcomp : (computeItemSimilarities stC6 (fun _ _ => 0)).item_similarities
      = [(1, [((2:Nat), (0:ℚ))]), (2, [(1, 0)])] := by
    unfold computeItemSimilarities
    dsimp only
    rw [if_neg (by decide), if_pos hsum]
    decide
  exact item_similarity_cache_shape stC6 (fun _ _ => 0) (by simp [stC6]) _
    (by rw [hcomp]; exact List.mem_cons_self _ _)

/-! ## C7: online-learning gradient step -/

theorem learnStep_containsKey (lr e : ℚ) (w : List (String × ℚ)) (p : String × ℚ)
    (k : String) : containsKey (learnStep lr e w p) k = containsKey w k := by
  unfold learnStep
  split
  case isTrue hcond => exact containsKey_setVal_of_contains w p.1 _ hcond.1 k
  case isFalse => rfl

theorem learnAll_containsKey (lr e : ℚ) (fs : List (String × ℚ)) :
    ∀ (w : List (String × ℚ)) (k : String),
      containsKey (learnAll lr e w fs) k = containsKey w k := by
  induction fs with
  | nil => intro w k; rfl
  | cons p t ih =>
    intro w k
    show containsKey (learnAll lr e (learnStep lr e w p) t) k = _
    rw [ih, learnStep_containsKey]

theorem learnStep_getD_ne (lr e : ℚ) (w : List (String × ℚ)) (p : String × ℚ)
    (k : String) (h : p.1 ≠ k) : getD (learnStep lr e w p) k 0 = getD w k 0 := by
  unfold learnStep
  split
  · exact getD_setVal_ne w p.1 k _ 0 h
  · rfl

theorem learnAll_getD_skip (lr e : ℚ) (fs : List (String × ℚ)) :
    ∀ (w : List (String × ℚ)) (k : String), (∀ p ∈ fs, p.1 ≠ k ∨ p.2 = 0) →
      getD (learnAll lr e w fs) k 0 = getD w k 0 := by
  induction fs with
  | nil => intro w k _; rfl
  | cons p t ih =>
    intro w k hall
    show getD (learnAll lr e (learnStep lr e w p) t) k 0 = _
    rw [ih _ k (fun q hq => hall q (List.mem_cons_of_mem _ hq))]
    rcases hall p (List.mem_cons_self _ _) with hne | hz
    · exact learnStep_getD_ne lr e w p k hne
    · have hnc : ¬ (containsKey w p.1 = true ∧ p.2 ≠ 0) := fun hc => hc.2 hz
      unfold learnStep
      rw [if_neg hnc]

theorem learnAll_getD_update (lr e : ℚ) (fs : List (String × ℚ)) :
    ∀ w : List (String × ℚ), (fs.map Prod.fst).Nodup →
      ∀ p ∈ fs, containsKey w p.1 = true → p.2 ≠ 0 →
        getD (learnAll lr e w fs) p.1 0 = clampW (getD w p.1 0 + lr * (e * p.2)) := by
  induction fs with
  | nil =>
    intro w _ p hp
    cases hp
  | cons q t ih =>
    intro w hnd p hp hck hnz
    obtain ⟨hq_notin, hnd_t⟩ := List.nodup_cons.mp hnd
    show getD (learnAll lr e (learnStep lr e w q) t) p.1 0 = _
    rcases List.mem_cons.mp hp with rfl | hpt
    · have hstep : getD (learnStep lr e w p) p.1 0
          = clampW (getD w p.1 0 + lr * (e * p.2)) := by
        unfold learnStep
        rw [if_pos ⟨hck, hnz⟩]
        exact getD_setVal_self _ _ _ _
      have hskip : ∀ q2 ∈ t, q2.1 ≠ p.1 ∨ q2.2 = 0 := by
        intro q2 hq2
        exact Or.inl (fun hEq => hq_notin (hEq ▸ List.mem_map_of_mem Prod.fst hq2))
      rw [learnAll_getD_skip lr e t _ p.1 hskip, hstep]
    · have hne : q.1 ≠ p.1 := fun hEq =>
        hq_notin (hEq ▸ List.mem_map_of_mem Prod.fst hpt)
      have hck2 : containsKey (learnStep lr e w q) p.1 = true := by
        rw [learnStep_containsKey]
        exact hck
      rw [ih _ hnd_t p hpt hck2 hnz, learnStep_getD_ne lr e w q p.1 hne]

theorem clampW_range (x : ℚ) : 1/10 ≤ clampW x ∧ clampW x ≤ 10 := by
  unfold clampW
  constructor
  · exact le_max_left _ _
  · apply max_le
    · norm_num
    · exact min_le_left _ _

theorem learnStep_range (lr e : ℚ) (w : List (String × ℚ)) (p : String × ℚ)
    (h : ∀ q ∈ w, 1/10 ≤ q.2 ∧ q.2 ≤ 10) :
    ∀ q ∈ learnStep lr e w p, 1/10 ≤ q.2 ∧ q.2 ≤ 10 := by
  unfold learnStep
  split
  · intro q hq
    rcases mem_setVal _ _ _ _ hq with rfl | hqw
    · exact clampW_range _
    · exact h q hqw
  · exact h

theorem learnAll_range (lr e : ℚ) (fs : List (String × ℚ)) :
    ∀ w : List (String × ℚ), (∀ q ∈ w, 1/10 ≤ q.2 ∧ q.2 ≤ 10) →
      ∀ q ∈ learnAll lr e w fs, 1/10 ≤ q.2 ∧ q.2 ≤ 10 := by
  induction fs with
  | nil => intro w h; exact h
  | cons p t ih =>
    intro w h
    exact ih _ (learnStep_range lr e w p h)

/-- C7.  A valid rated call whose context supplies features and a predicted
score applies exactly one gradient step, with clamping, to every feature
named in the context with nonzero value and present in the weight table;
every other weight is unchanged; all weights stay in [0.1, 10] (and the
initial weights lie in [0.1, 10]). -/
theorem online_learning_gradient_step (st : RecState) (uid : String) (aid : Nat)
    (ity : String) (r ps : ℚ) (fs : List (String × ℚ)) (now : ℚ) (sims : Nat → Nat → ℚ)
    (hu : ¬ (uid = "" ∨ aid = 0)) (hr : 1 ≤ r ∧ r ≤ 5)
    (hnd : (fs.map Prod.fst).Nodup) :
    (recordInteraction st uid aid ity (some r) (some ⟨some fs, some ps⟩) now false sims).1
        = none
    ∧ (∀ p ∈ fs, containsKey st.feature_weights p.1 = true → p.2 ≠ 0 →
        getD (recordInteraction st uid aid ity (some r) (some ⟨some fs, some ps⟩) now false
            sims).2.feature_weights p.1 0
          = clampW (getD st.feature_weights p.1 0
              + st.learning_rate * ((r / 5 - ps / 20) * p.2)))
    ∧ (∀ k : String, (∀ p ∈ fs, p.1 ≠ k ∨ p.2 = 0) →
        getD (recordInteraction st uid aid ity (some r) (some ⟨some fs, some ps⟩) now false
            sims).2.feature_weights k 0 = getD st.feature_weights k 0)
    ∧ ((∀ q ∈ st.feature_weights, 1/10 ≤ q.2 ∧ q.2 ≤ 10) →
        ∀ q ∈ (recordInteraction st uid aid ity (some r) (some ⟨some fs, some ps⟩) now false
            sims).2.feature_weights, 1/10 ≤ q.2 ∧ q.2 ≤ 10)
    ∧ (∀ q ∈ initialFeatureWeights, 1/10 ≤ q.2 ∧ q.2 ≤ 10) := by
  have h2 : ratingInvalid (some r) = false := by
    simp [ratingInvalid, hr.1, hr.2]
  have e : recordInteraction st uid aid ity (some r) (some ⟨some fs, some ps⟩) now false sims
      = (none, postInteraction
          { st with
            user_interactions := setVal st.user_interactions uid
              ⟨modifyValD (getD st.user_interactions uid ⟨[], now⟩).items aid 0
                (· + getD interactionWeights ity (1 / 10) * (r / 5)), now⟩
            feedback_data := st.feedback_data ++ [⟨uid, aid, r, now⟩]
            total_feedback := st.total_feedback + 1
            avg_rating := ratingMean (st.feedback_data ++ [⟨uid, aid, r, now⟩])
            feature_weights := learnAll st.learning_rate (r / 5 - ps / 20)
              st.feature_weights fs
            model_updates := st.model_updates + 1 } now sims) := by
    unfold recordInteraction
    rw [if_neg hu, h2, if_neg Bool.false_ne_true]
    rfl
  have hfw : (recordInteraction st uid aid ity (some r) (some ⟨some fs, some ps⟩) now false
        sims).2.feature_weights
      = learnAll st.learning_rate (r / 5 - ps / 20) st.feature_weights fs := by
    rw [e]
    rw [postInteraction_feature_weights]
  refine ⟨by rw [e], ?_, ?_, ?_, ?_⟩
  · intro p hp hck hnz
    rw [hfw]
    exact learnAll_getD_update st.learning_rate (r / 5 - ps / 20) fs st.feature_weights
      hnd p hp hck hnz
  · intro k hsk
    rw [hfw]
    exact learnAll_getD_skip st.learning_rate (r / 5 - ps / 20) fs st.feature_weights k hsk
  · intro hrange
    rw [hfw]
    exact learnAll_range st.learning_rate (r / 5 - ps / 20) fs st.feature_weights hrange
  · intro q hq
    simp only [initialFeatureWeights, List.mem_cons, List.not_mem_nil, or_false] at hq
    rcases hq with rfl | rfl | rfl | rfl | rfl | rfl | rfl | rfl <;> norm_num

/-- C7 witness: one concrete gradient step on `semantic_similarity`. -/
theorem online_learning_gradient_step_witness :
    getD (recordInteraction initialState "u" 1 "rate" (some 5)
        (some ⟨some [("semantic_similarity", 1)], some 10⟩) 0 false
        (fun _ _ => 0)).2.feature_weights "semantic_similarity" 0
      = clampW (getD initialState.feature_weights "semantic_similarity" 0
          + initialState.learning_rate * ((5 / 5 - 10 / 20) * 1)) :=
  (online_learning_gradient_step initialState "u" 1 "rate" 5 10
      [("semantic_similarity", 1)] 0 (fun _ _ => 0)
      (by decide) (by norm_num) (by decide)).2.1
    ("semantic_similarity", 1) (List.mem_cons_self _ _) (by decide) (by norm_num)

/-! ## C8: brand-new users get collaborative score 0 -/

theorem pyRound2_zero : pyRound2 0 = 0 := by
  norm_num [pyRound2, roundHalfEven]

/-- C8.  A user absent from the interaction store receives collaborative
score 0 for every item: the inner collaborative computation returns 0 for
every assessment id, and every returned recommendation entry carries a zero
collaborative breakdown and the new-user flag. -/
theorem new_user_collaborative_zero (st : RecState)
    (uid role level industry goal : String) (top_k : Nat) (semsRaw : List ℚ)
    (expFn : ℚ → ℚ) (h : containsKey st.user_interactions uid = false) :
    (∀ aid : Nat, collabScoreFor st uid aid = 0)
    ∧ ∀ res ∈ getAdvancedRecommendations st uid role level industry goal top_k semsRaw expFn,
        res.collaborative = 0 ∧ res.is_new_user = true := by
  constructor
  · intro aid
    unfold collabScoreFor
    rw [getD_of_not_contains _ _ _ h]
    rfl
  · intro res hres
    unfold getAdvancedRecommendations at hres
    have hres2 : res ∈ pySortByDesc (fun r => r.total_score)
        (scoreAssessments st uid role level industry goal semsRaw expFn) :=
      List.mem_of_mem_take hres
    have hres3 : res ∈ scoreAssessments st uid role level industry goal semsRaw expFn :=
      (mem_pySortByDesc _ _ _).mp hres2
    unfold scoreAssessments at hres3
    rw [h] at hres3
    obtain ⟨p, hp, rfl⟩ := List.mem_map.mp hres3
    dsimp only
    constructor
    · rw [if_neg (by simp : ¬ (¬ (false = false) ∧ false = true))]
      simpa using pyRound2_zero
    · simp

/-- C8 witness: concrete instantiation at the initial (empty-store) state. -/
theorem new_user_collaborative_zero_witness :
    collabScoreFor initialState "newuser" 7 = 0 :=
  (new_user_collaborative_zero initialState "newuser" "" "" "" "" 10 [] (fun x => x)
    (by decide)).1 7

/-! ## C9: top-k, sorting and stable ties -/

/-- C9.  For every scoring request, the returned list has at most `top_k`
entries, its (rounded) total scores are non-increasing, and any two entries —
in particular ties — are ordered by strictly larger score first and by
catalog position on equal scores (the stable-sort guarantee). -/
theorem recommendations_topk_sorted (st : RecState)
    (uid role level industry goal : String) (top_k : Nat) (semsRaw : List ℚ)
    (expFn : ℚ → ℚ) :
    (getAdvancedRecommendations st uid role level industry goal top_k semsRaw expFn).length
        ≤ top_k
    ∧ (getAdvancedRecommendations st uid role level industry goal top_k semsRaw
        expFn).Pairwise (fun a b => b.total_score ≤ a.total_score)
    ∧ (getAdvancedRecommendations st uid role level industry goal top_k semsRaw
        expFn).Pairwise (fun a b =>
          b.total_score < a.total_score
          ∨ (a.total_score = b.total_score ∧ a.idx < b.idx)) := by
  have hidx : (scoreAssessments st uid role level industry goal semsRaw expFn).Pairwise
      (fun a b => a.idx < b.idx) := by
    unfold scoreAssessments
    exact List.Pairwise.map _ (fun p q hpq => hpq) (enumList_pairwise_fst ASSESSMENTS 0)
  have hsr := pairwise_pySortByDesc (fun r : RecResult => r.total_score)
    (fun r : RecResult => r.idx) _ hidx
  refine ⟨?_, ?_, ?_⟩
  · unfold getAdvancedRecommendations
    simp [List.length_take]
  · unfold getAdvancedRecommendations
    exact (pairwise_pySortByDesc_key (fun r : RecResult => r.total_score) _).sublist
      (List.take_sublist _ _)
  · unfold getAdvancedRecommendations
    exact (hsr.imp (fun hab => hab)).sublist (List.take_sublist _ _)

/-! ## C10: unrecognized interaction types -/

/-- C10.  A valid rated call with an interaction type outside
{view, click, rate, select} is accepted (no error), and accumulates the
default weight 0.1 scaled by rating/5 into the (user, item) entry of the
interaction store. -/
theorem unknown_interaction_type_accepted (st : RecState) (uid : String) (aid : Nat)
    (ity : String) (r : ℚ) (ctx : Option InteractionCtx) (now : ℚ) (sims : Nat → Nat → ℚ)
    (hu : ¬ (uid = "" ∨ aid = 0)) (hr : 1 ≤ r ∧ r ≤ 5)
    (hw : containsKey interactionWeights ity = false) :
    (recordInteraction st uid aid ity (some r) ctx now false sims).1 = none
    ∧ getD (getD (recordInteraction st uid aid ity (some r) ctx now false
          sims).2.user_interactions uid ⟨[], now⟩).items aid 0
        = getD (getD st.user_interactions uid ⟨[], now⟩).items aid 0
            + (1 / 10) * (r / 5) := by
  have h2 : ratingInvalid (some r) = false := by
    simp [ratingInvalid, hr.1, hr.2]
  have e : recordInteraction st uid aid ity (some r) ctx now false sims
      = (none, postInteraction (onlineLearning
          { st with
            user_interactions := setVal st.user_interactions uid
              ⟨modifyValD (getD st.user_interactions uid ⟨[], now⟩).items aid 0
                (· + getD interactionWeights ity (1 / 10) * (r / 5)), now⟩
            feedback_data := st.feedback_data ++ [⟨uid, aid, r, now⟩]
            total_feedback := st.total_feedback + 1
            avg_rating := ratingMean (st.feedback_data ++ [⟨uid, aid, r, now⟩]) }
          r ctx) now sims) := by
    unfold recordInteraction
    rw [if_neg hu, h2, if_neg Bool.false_ne_true]
    rfl
  constructor
  · rw [e]
  · rw [e]
    set st3 : RecState :=
      { st with
        user_interactions := setVal st.user_interactions uid
          ⟨modifyValD (getD st.user_interactions uid ⟨[], now⟩).items aid 0
            (· + getD interactionWeights ity (1 / 10) * (r / 5)), now⟩
        feedback_data := st.feedback_data ++ [⟨uid, aid, r, now⟩]
        total_feedback := st.total_feedback + 1
        avg_rating := ratingMean (st.feedback_data ++ [⟨uid, aid, r, now⟩]) } with hst3
    have hfind : findVal? (onlineLearning st3 r ctx).user_interactions uid
        = some ⟨modifyValD (getD st.user_interactions uid ⟨[], now⟩).items aid 0
            (· + getD interactionWeights ity (1 / 10) * (r / 5)), now⟩ := by
      rw [onlineLearning_user_interactions, hst3]
      exact findVal?_setVal_self _ _ _
    have httl : ((onlineLearning st3 r ctx).user_ttl_days : ℚ) = (st.user_ttl_days : ℚ) := by
      rw [onlineLearning_user_ttl_days, hst3]
    have hkeep : ¬ ((⟨modifyValD (getD st.user_interactions uid ⟨[], now⟩).items aid 0
          (· + getD interactionWeights ity (1 / 10) * (r / 5)), now⟩ : UserData).last_activity
        < now - ((onlineLearning st3 r ctx).user_ttl_days : ℚ)) := by
      rw [httl]
      show ¬ (now < now - (st.user_ttl_days : ℚ))
      have : now - (st.user_ttl_days : ℚ) ≤ now :=
        sub_le_self now (Nat.cast_nonneg _)
      exact not_lt.mpr this
    have hlook := postInteraction_user_lookup (onlineLearning st3 r ctx) now sims uid _
      hfind hkeep
    have hud : getD (postInteraction (onlineLearning st3 r ctx) now sims).user_interactions
        uid ⟨[], now⟩
        = ⟨modifyValD (getD st.user_interactions uid ⟨[], now⟩).items aid 0
            (· + getD interactionWeights ity (1 / 10) * (r / 5)), now⟩ := by
      rw [getD, hlook]
      rfl
    show getD (getD (postInteraction (onlineLearning st3 r ctx) now
        sims).user_interactions uid ⟨[], now⟩).items aid 0 = _
    rw [hud]
    show getD (modifyValD (getD st.user_interactions uid ⟨[], now⟩).items aid 0
        (· + getD interactionWeights ity (1 / 10) * (r / 5))) aid 0 = _
    rw [modifyValD, getD_setVal_self, getD_of_not_contains _ _ _ hw]

/-- C10 witness: a concrete call with the unrecognized type "swipe" succeeds. -/
theorem unknown_interaction_type_accepted_witness :
    (recordInteraction initialState "u" 1 "swipe" (some 5) none 0 false
        (fun _ _ => 0)).1 = none :=
  (unknown_interaction_type_accepted initialState "u" 1 "swipe" 5 none 0 (fun _ _ => 0)
    (by decide) (by norm_num) (by decide)).1

end SHLRec
